import Mathlib

/-!
# Verification of the saarctf gamelib flag codec, outcome translation and conformance audit

Shallow embedding of the Python sources of `saarctf-gamelib`:
* `gamelib.py` — `ServiceInterface.get_flag` / `check_flag` / `load_or_flagmissing`,
  together with the pieces of the Python standard library they rely on
  (`struct.pack('<HHHH', ...)`, `base64.b64encode` / `b64decode`, `str.replace`).
* `exceptions.py` — `translate_checker_exceptions` / `handle_checker_exceptions`.
* `ci/testscripts/checker_utils.py` — `run_checker`.
* `ci/testscripts/wrapped_interface.py` — `ServiceInterfaceWrapper`.
* `ci/testscripts/test-checkerscript.py` — the configuration audit of `test_configuration`.

Modelling conventions:
* Python `str` and `bytes` values are modelled as `List Nat` of code points / byte
  values; Python's arbitrary-precision `int` is `Int`.
* A Python function that can raise is modelled as `Except String α` (the `String`
  names the exception raised).
* `hmac.new(key, data, sha256).digest()[:16]` is deterministic in `data` once the
  process-wide key is fixed; it is modelled as an arbitrary function parameter
  `mac : List Nat → List Nat` (its only properties used by the code under
  verification are determinism, the digest length, and digests being bytes).
* Python floats in the configuration audit are modelled as exact rationals.
-/

/-! ## Python `base64` (CPython `binascii.a2b_base64` in non-strict mode) -/

/-- `MAC_LENGTH = 16` from `gamelib.py`. -/
def MAC_LENGTH : Nat := 16

/-- `FLAG_LENGTH = 24` from `gamelib.py`. -/
def FLAG_LENGTH : Nat := 24

/-- The standard base64 alphabet as a table from a sextet (0..63) to the
character's code point: `A-Z`, `a-z`, `0-9`, `+`, `/`. -/
def b64table (s : Nat) : Nat :=
  if s < 26 then 65 + s
  else if s < 52 then 97 + (s - 26)
  else if s < 62 then 48 + (s - 52)
  else if s = 62 then 43
  else 47

/-- Inverse alphabet table (`table_a2b_base64` in CPython's `binascii.c`):
maps a code point to its sextet, `none` for characters outside the alphabet. -/
def b64detab (c : Nat) : Option Nat :=
  if 65 ≤ c ∧ c ≤ 90 then some (c - 65)
  else if 97 ≤ c ∧ c ≤ 122 then some (c - 97 + 26)
  else if 48 ≤ c ∧ c ≤ 57 then some (c - 48 + 52)
  else if c = 43 then some 62
  else if c = 47 then some 63
  else none

/-- `base64.b64encode` on a byte string: groups of three bytes become four
alphabet characters; a trailing group of one or two bytes is padded with `=`
(code point 61). -/
def b64encode : List Nat → List Nat
  | [] => []
  | [b0] => [b64table (b0 / 4), b64table (b0 % 4 * 16), 61, 61]
  | [b0, b1] => [b64table (b0 / 4), b64table (b0 % 4 * 16 + b1 / 16), b64table (b1 % 16 * 4), 61]
  | b0 :: b1 :: b2 :: rest =>
    b64table (b0 / 4) :: b64table (b0 % 4 * 16 + b1 / 16) ::
    b64table (b1 % 16 * 4 + b2 / 64) :: b64table (b2 % 64) :: b64encode rest

/-- The decoding loop of CPython's `binascii.a2b_base64` (non-strict mode, the
mode used by `base64.b64decode(data)`): characters outside the alphabet are
skipped, a sufficient pad sequence (`=`, only counted once at least two data
characters of the current quad were seen) terminates decoding successfully, and
leftover data characters at the end raise `binascii.Error`.  Arguments mirror
the C locals `quad_pos`, `leftchar`, `pads`. -/
def a2b_loop : List Nat → Nat → Nat → Nat → Except String (List Nat)
  | [], quad_pos, _, _ =>
    if quad_pos = 0 then .ok []
    else if quad_pos = 1 then
      .error "binascii.Error: Invalid base64-encoded string: number of data characters cannot be 1 more than a multiple of 4"
    else .error "binascii.Error: Incorrect padding"
  | c :: rest, quad_pos, leftchar, pads =>
    if c = 61 then
      if 2 ≤ quad_pos then
        if 4 ≤ quad_pos + (pads + 1) then .ok []
        else a2b_loop rest quad_pos leftchar (pads + 1)
      else a2b_loop rest quad_pos leftchar pads
    else
      match b64detab c with
      | none => a2b_loop rest quad_pos leftchar pads
      | some s =>
        match quad_pos with
        | 0 => a2b_loop rest 1 s 0
        | 1 => (a2b_loop rest 2 (s % 16) 0).map (fun l => (leftchar * 4 + s / 16) :: l)
        | 2 => (a2b_loop rest 3 (s % 4) 0).map (fun l => (leftchar * 16 + s / 4) :: l)
        | _ => (a2b_loop rest 0 0 0).map (fun l => (leftchar * 64 + s) :: l)

/-- `base64.b64decode` on a `str` argument: the string must be pure ASCII
(otherwise `ValueError` is raised by `_bytes_from_decode_data`), then the bytes
are decoded by `binascii.a2b_base64` in non-strict mode. -/
def b64decode (l : List Nat) : Except String (List Nat) :=
  if l.any (fun c => 128 ≤ c) then
    .error "ValueError: string argument should contain only ASCII characters."
  else a2b_loop l 0 0 0

/-! ## Python `struct` for format `'<HHHH'` -/

/-- `struct.pack` of one little-endian `H` (unsigned 16-bit) field: raises
`struct.error` unless the value is in `[0, 0xffff]`. -/
def packH (v : Int) : Except String (List Nat) :=
  if 0 ≤ v ∧ v < 65536 then .ok [v.toNat % 256, v.toNat / 256]
  else .error "struct.error: 'H' format requires 0 <= number <= 65535"

/-- `struct.pack('<HHHH', a, b, c, d)`. -/
def packHHHH (a b c d : Int) : Except String (List Nat) :=
  match packH a with
  | .error e => .error e
  | .ok x1 =>
    match packH b with
    | .error e => .error e
    | .ok x2 =>
      match packH c with
      | .error e => .error e
      | .ok x3 =>
        match packH d with
        | .error e => .error e
        | .ok x4 => .ok (x1 ++ x2 ++ x3 ++ x4)

/-- `struct.unpack('<HHHH', data)`: requires exactly 8 bytes and returns the
four little-endian 16-bit values. -/
def unpackHHHH (l : List Nat) : Except String (Int × Int × Int × Int) :=
  match l with
  | [a0, a1, b0, b1, c0, c1, d0, d1] =>
    .ok ((a0 : Int) + 256 * a1, (b0 : Int) + 256 * b1, (c0 : Int) + 256 * c1, (d0 : Int) + 256 * d1)
  | _ => .error "struct.error: unpack requires a buffer of 8 bytes"

/-! ## `ServiceInterface.get_flag` and `check_flag` -/

/-- `str.replace(old, new)` for single-character `old`/`new`. -/
def pyReplace (old new : Nat) (l : List Nat) : List Nat :=
  l.map (fun c => if c = old then new else c)

/-- The code points of the literal `'SAAR'` followed by the opening brace. -/
def SAAR_HEAD : List Nat := [83, 65, 65, 82, 123]

/-- `ServiceInterface.get_flag(team, tick, payload)` (`gamelib.py` lines
195-207) for a service whose `self.id` is `selfId`.  Python's `tick & 0xffff`
on an arbitrary-precision integer equals the mathematical `tick mod 2^16`,
written here as `tick % 65536` (`Int.emod`).  The byte 125 is the closing
brace. -/
def get_flag (mac : List Nat → List Nat) (teamId selfId tick payload : Int) :
    Except String (List Nat) :=
  match packHHHH (tick % 65536) teamId selfId payload with
  | .error e => .error e
  | .ok data =>
    .ok (SAAR_HEAD ++ pyReplace 47 95 (pyReplace 43 45 (b64encode (data ++ mac data))) ++ [125])

/-- The `check_team_id is not None and check_team_id != teamid` test. -/
def teamMismatch (check : Option Int) (teamid : Int) : Bool :=
  match check with
  | some t => t != teamid
  | none => false

/-- The `check_stored_tick is not None and check_stored_tick & 0xffff != stored_tick`
test (`& 0xffff` again written as `% 65536`). -/
def tickMismatch (check : Option Int) (stored : Int) : Bool :=
  match check with
  | some st => st % 65536 != stored
  | none => false

/-- `ServiceInterface.check_flag(flag, check_team_id, check_stored_tick)`
(`gamelib.py` lines 209-246).  The result `.ok (none, none, none, none)` is
Python's explicit invalid quadruple; `.error` models an exception escaping
`check_flag`.  Note `flag[-1]` is only evaluated when the first disjunct
`flag[:5] != 'SAAR' + brace` is false, hence the list is then nonempty. -/
def check_flag (mac : List Nat → List Nat) (selfId : Int) (flag : List Nat)
    (check_team_id check_stored_tick : Option Int) :
    Except String (Option Int × Option Int × Option Int × Option Int) :=
  if flag.take 5 ≠ SAAR_HEAD then .ok (none, none, none, none)
  else if flag.getLast? ≠ some 125 then .ok (none, none, none, none)
  else
    match b64decode (pyReplace 45 43 (pyReplace 95 47 ((flag.drop 5).dropLast))) with
    | .error e => .error e
    | .ok data =>
      if data.length ≠ FLAG_LENGTH then .ok (none, none, none, none)
      else
        match unpackHHHH (data.take (data.length - MAC_LENGTH)) with
        | .error e => .error e
        | .ok (stored_tick, teamid, serviceid, payload) =>
          if serviceid ≠ selfId then .ok (none, none, none, none)
          else if data.drop (data.length - MAC_LENGTH) ≠ mac (data.take (data.length - MAC_LENGTH)) then
            .ok (none, none, none, none)
          else if teamMismatch check_team_id teamid then .ok (none, none, none, none)
          else if tickMismatch check_stored_tick stored_tick then .ok (none, none, none, none)
          else .ok (some teamid, some serviceid, some stored_tick, some payload)

/-! ## `exceptions.py` — exception taxonomy and translation

Python exceptions relevant to `translate_checker_exceptions` are modelled as an
inductive type.  Two subclass relations of the real hierarchy matter for the
`except` clauses and are represented by separate constructors handled like
their base class: `timeout_decorator.TimeoutError` derives from
`AssertionError` (so it is caught by the first clause), while the builtin
`TimeoutError` derives from `OSError` but is caught by the dedicated
`except TimeoutError` clause, which textually precedes `except OSError`. -/

inductive PyExc where
  | assertionError (msg argsRepr : String)
  | timeoutDecoratorTimeout (msg argsRepr : String)
  | keyError (msg : String)
  | valueError (msg : String)
  | indexError (msg : String)
  | chunkedEncodingError (msg : String)
  | contentDecodingError (msg : String)
  | tooManyRedirects (msg : String)
  | connectionError (msg : String)
  | eofError (msg : String)
  | requestsConnectionError (msg : String)
  | requestsTimeout (msg : String)
  | pwnlibException (arg0 : String)
  | timeoutError (msg : String)
  | osError (msg : String)
  | flagMissingException (msg : String)
  | mumbleException (msg : String)
  | offlineException (msg : String)
  | otherException (name msg : String)
  deriving DecidableEq

/-- Python's `needle in haystack` on strings. -/
def strContains (haystack needle : String) : Bool :=
  (haystack.splitOn needle).length > 1

/-- `translate_checker_exceptions` (`exceptions.py` lines 35-70), viewed as a
function from the exception raised by the body to the exception that leaves the
context manager.  `CheckerException`s and unclassified exceptions match no
`except` clause and propagate unchanged. -/
def translate_exc : PyExc → PyExc
  | .assertionError m a => .mumbleException (m ++ " " ++ a)
  | .timeoutDecoratorTimeout m a => .mumbleException (m ++ " " ++ a)
  | .keyError m => .mumbleException m
  | .valueError m => .mumbleException m
  | .indexError m => .mumbleException m
  | .chunkedEncodingError m => .mumbleException m
  | .contentDecodingError m => .mumbleException m
  | .tooManyRedirects m => .mumbleException m
  | .connectionError m => .offlineException m
  | .eofError m => .offlineException m
  | .requestsConnectionError m => .offlineException m
  | .requestsTimeout m => .offlineException m
  | .pwnlibException a0 =>
    if strContains a0 "Could not connect to" then .offlineException a0 else .pwnlibException a0
  | .timeoutError m => .offlineException m
  | .osError m =>
    if strContains m "No route to host" then .offlineException "no route to host" else .osError m
  | .flagMissingException m => .flagMissingException m
  | .mumbleException m => .mumbleException m
  | .offlineException m => .offlineException m
  | .otherException n m => .otherException n m

/-- The observable behaviour of one execution of the plugin body
`lambda: func(team, tick)`: either it returns a value (a lifecycle method
returns `None`, modelled `.ok none`; an arbitrary callable may return a
status pair, modelled `.ok (some pair)`), or it raises. -/
inductive CallResult where
  | ok (r : Option (String × Option String))
  | exc (e : PyExc)

/-- `handle_checker_exceptions` (`exceptions.py` lines 73-87): run the body
under `translate_checker_exceptions`, catch the three `CheckerException`
variants, let everything else escape. -/
def handle_checker_exceptions (res : CallResult) : Except PyExc (String × Option String) :=
  match res with
  | .ok r => .ok (r.getD ("SUCCESS", none))
  | .exc e =>
    match translate_exc e with
    | .flagMissingException m => .ok ("FLAGMISSING", some m)
    | .mumbleException m => .ok ("MUMBLE", some m)
    | .offlineException m => .ok ("OFFLINE", some m)
    | e' => .error e'

/-- `run_checker` (`checker_utils.py` lines 101-107): the bare `except:` turns
any exception escaping `handle_checker_exceptions` into `('CRASHED', None)`.
The `@timeout_decorator.timeout(30)` deadline is modelled by the body raising
the corresponding timeout exception (see `PyExc`). -/
def run_checker (res : CallResult) : String × Option String :=
  match handle_checker_exceptions res with
  | .ok r => r
  | .error _ => ("CRASHED", none)

/-! ## `ServiceInterface.load` / `load_or_flagmissing`

The Redis connection is modelled as a lookup function from key strings to the
raw stored strings, and `json.loads` as an abstract decoding function whose
`none` result models the Python value `None` (stored JSON `null`). -/

/-- `ServiceInterface.load` (`gamelib.py` lines 175-187): build the namespaced
key, look it up, and JSON-decode the raw value if present. -/
def load (redis : String → Option String) (jsonLoads : String → Option String)
    (serviceName : String) (teamId tick : Int) (key : String) : Option String :=
  match redis ("services:" ++ serviceName ++ ":" ++ toString teamId ++ ":" ++
      toString tick ++ ":" ++ key) with
  | none => none
  | some raw => jsonLoads raw

/-- `ServiceInterface.load_or_flagmissing` (`gamelib.py` lines 189-193). -/
def load_or_flagmissing (redis : String → Option String) (jsonLoads : String → Option String)
    (serviceName : String) (teamId tick : Int) (key : String) : Except PyExc String :=
  match load redis jsonLoads serviceName teamId tick key with
  | none => .error (.flagMissingException "Flag never stored")
  | some v => .ok v

/-- A `retrieve_flags` body that obtains its stored value through
`load_or_flagmissing` (the plugin style named by the spec): it raises whatever
`load_or_flagmissing` raises and otherwise completes normally. -/
def retrieve_flags_via_load (redis : String → Option String)
    (jsonLoads : String → Option String) (serviceName : String)
    (teamId tick : Int) (key : String) : CallResult :=
  match load_or_flagmissing redis jsonLoads serviceName teamId tick key with
  | .error e => .exc e
  | .ok _ => .ok none

/-! ## `wrapped_interface.py` — `ServiceInterfaceWrapper`

A `ServiceInterface` instance is mutable in Python: `wrap` replaces five of its
method attributes by `prefix_function(recorder, old_method)` and sets the
attribute `_service_wrapper`.  The instance is modelled by the list of recorder
hooks attached to each instrumented method (outermost first, each hook naming
the wrapper it records into) plus the optional `_service_wrapper` attribute. -/

structure IfaceObj where
  getFlagHooks : List Nat
  getFlagIdHooks : List Nat
  checkIntegrityHooks : List Nat
  storeFlagsHooks : List Nat
  retrieveFlagsHooks : List Nat
  serviceWrapper : Option Nat
  deriving DecidableEq

/-- `ServiceInterfaceWrapper.wrap` (`wrapped_interface.py` lines 30-39) by the
wrapper identified as `w`: if `hasattr(iface, '_service_wrapper')`, return the
instance unchanged; otherwise prefix every instrumented method with this
wrapper's recorder and set `_service_wrapper`. -/
def wrap (w : Nat) (iface : IfaceObj) : IfaceObj :=
  if iface.serviceWrapper.isSome then iface
  else
    { getFlagHooks := w :: iface.getFlagHooks
      getFlagIdHooks := w :: iface.getFlagIdHooks
      checkIntegrityHooks := w :: iface.checkIntegrityHooks
      storeFlagsHooks := w :: iface.storeFlagsHooks
      retrieveFlagsHooks := w :: iface.retrieveFlagsHooks
      serviceWrapper := some w }

/-- Calling `iface.get_flag(team, tick, payload)` runs every attached recorder
hook once before the original method; the recordings made are one
`(team.id, tick, payload)` entry per hook, into that hook's wrapper. -/
def getFlagRecordings (iface : IfaceObj) (teamId tick payload : Int) :
    List (Nat × (Int × Int × Int)) :=
  iface.getFlagHooks.map (fun w => (w, (teamId, tick, payload)))

/-- A freshly constructed, never wrapped `ServiceInterface` instance. -/
def freshIface : IfaceObj :=
  { getFlagHooks := [], getFlagIdHooks := [], checkIntegrityHooks := []
    storeFlagsHooks := [], retrieveFlagsHooks := [], serviceWrapper := none }

/-! ## `test-checkerscript.py` — configuration audit (`test_configuration`)

The wrapper aggregates are Python sets, modelled as `Finset`s.  A flag request
is the triple `(team_id, tick, payload)`. -/

/-- The keys of the `counts` dictionary built by
`ServiceInterfaceWrapper.flags_per_tick` (`wrapped_interface.py` lines 57-62):
one entry per `(team_id, tick)` with `tick >= 0` among the requested flags. -/
def countsKeys (flags : Finset (Int × Int × Int)) : Finset (Int × Int) :=
  (flags.filter (fun x => 0 ≤ x.2.1)).image (fun x => (x.1, x.2.1))

/-- The value `counts[(team_id, tick)]`: how many requested-flag triples fall
on that team and (non-negative) tick. -/
def tickCount (flags : Finset (Int × Int × Int)) (k : Int × Int) : Nat :=
  ((flags.filter (fun x => 0 ≤ x.2.1)).filter (fun x => (x.1, x.2.1) = k)).card

/-- `ServiceInterfaceWrapper.flags_per_tick`: `(min, max, avg)` over the
counts dictionary; `none` models the `ValueError` raised by `min()` on an
empty dictionary.  `min`/`max` of the multiset of dictionary values equal
`Finset.min`/`Finset.max` of its deduplicated image; the average is formed
from the undeduplicated sum, as in the source. -/
def flags_per_tick (flags : Finset (Int × Int × Int)) : Option (Nat × Nat × ℚ) :=
  let keys := countsKeys flags
  match (keys.image (tickCount flags)).min, (keys.image (tickCount flags)).max with
  | some mn, some mx =>
    some (mn, mx, (∑ k ∈ keys, (tickCount flags k : ℚ)) / keys.card)
  | _, _ => none

/-- `ServiceInterfaceWrapper.payloads`: the set of payload components. -/
def payloadsOf (flags : Finset (Int × Int × Int)) : Finset Int :=
  flags.image (fun x => x.2.2)

/-- `ServiceInterfaceWrapper.num_ticks`: `len(self._runned_ticks)`. -/
def num_ticks (runned : Finset (Int × Int)) : Nat := runned.card

/-- The flags-per-tick portion of `test_configuration`
(`test-checkerscript.py` lines 190-199) as a pass/fail predicate on the
declared `flags_per_tick` value: with fewer than 10 recorded ticks the test
returns early (pass); a `ValueError` from `flags_per_tick` on an empty counts
dictionary fails the test; otherwise both assertions must hold. -/
def auditFlagsPerTick (runned : Finset (Int × Int)) (flags : Finset (Int × Int × Int))
    (declared : ℚ) : Bool :=
  if num_ticks runned < 10 then true
  else
    match flags_per_tick flags with
    | none => false
    | some (mn, mx, avg) =>
      decide ((mn : ℚ) ≤ declared ∧ declared ≤ (mx : ℚ) ∧
        ((⌊avg⌋ : ℤ) : ℚ) ≤ declared ∧ declared ≤ ((⌈avg⌉ : ℤ) : ℚ))

/-- The payload portion of `test_configuration` (`test-checkerscript.py`
lines 201-208) as a pass/fail predicate on the declared `num_payloads`:
more than 10 distinct payloads require `num_payloads == 0`; otherwise the
payload set must be exactly `0, ..., n-1` and `n` must equal `num_payloads`. -/
def auditPayloads (flags : Finset (Int × Int × Int)) (numPayloads : Int) : Bool :=
  let payloads := payloadsOf flags
  if payloads.card > 10 then numPayloads == 0
  else
    decide (payloads = (Finset.range payloads.card).image (fun n : Nat => (n : Int))) &&
      ((payloads.card : Int) == numPayloads)

/-! ## Lemmas: base64 round trip -/

/-- Decoding table inverts the encoding table on sextets. -/
lemma b64detab_b64table : ∀ s : Nat, s < 64 → b64detab (b64table s) = some s := by
  decide

/-- The pad character is not in the alphabet's image. -/
lemma b64table_ne_pad : ∀ s : Nat, s < 64 → b64table s ≠ 61 := by
  decide

/-- One decoding step on a data character at `quad_pos = 0`. -/
lemma a2b_step0 (c s : Nat) (hs : b64detab c = some s) (rest : List Nat) (left pads : Nat) :
    a2b_loop (c :: rest) 0 left pads = a2b_loop rest 1 s 0 := by
  have hc : c ≠ 61 := by intro h; rw [h] at hs; simp [b64detab] at hs
  simp [a2b_loop, hc, hs]

/-- One decoding step on a data character at `quad_pos = 1`. -/
lemma a2b_step1 (c s : Nat) (hs : b64detab c = some s) (rest : List Nat) (left pads : Nat) :
    a2b_loop (c :: rest) 1 left pads =
      (a2b_loop rest 2 (s % 16) 0).map (fun l => (left * 4 + s / 16) :: l) := by
  have hc : c ≠ 61 := by intro h; rw [h] at hs; simp [b64detab] at hs
  simp [a2b_loop, hc, hs]

/-- One decoding step on a data character at `quad_pos = 2`. -/
lemma a2b_step2 (c s : Nat) (hs : b64detab c = some s) (rest : List Nat) (left pads : Nat) :
    a2b_loop (c :: rest) 2 left pads =
      (a2b_loop rest 3 (s % 4) 0).map (fun l => (left * 16 + s / 4) :: l) := by
  have hc : c ≠ 61 := by intro h; rw [h] at hs; simp [b64detab] at hs
  simp [a2b_loop, hc, hs]

/-- One decoding step on a data character at `quad_pos = 3`. -/
lemma a2b_step3 (c s : Nat) (hs : b64detab c = some s) (rest : List Nat) (left pads : Nat) :
    a2b_loop (c :: rest) 3 left pads =
      (a2b_loop rest 0 0 0).map (fun l => (left * 64 + s) :: l) := by
  have hc : c ≠ 61 := by intro h; rw [h] at hs; simp [b64detab] at hs
  simp [a2b_loop, hc, hs]

/-- The decoding loop inverts `b64encode` on byte strings whose length is a
multiple of three (no padding is emitted, so every encoded character is a data
character). -/
lemma a2b_loop_b64encode : ∀ bs : List Nat, (∀ b ∈ bs, b < 256) → bs.length % 3 = 0 →
    a2b_loop (b64encode bs) 0 0 0 = .ok bs
  | [], _, _ => by simp [b64encode, a2b_loop]
  | [b0], _, h3 => by simp at h3
  | [b0, b1], _, h3 => by simp at h3
  | b0 :: b1 :: b2 :: rest, hb, h3 => by
    have hb0 : b0 < 256 := hb _ (by simp)
    have hb1 : b1 < 256 := hb _ (by simp)
    have hb2 : b2 < 256 := hb _ (by simp)
    have hrest : ∀ b ∈ rest, b < 256 := fun b h => hb b (by simp [h])
    have h3' : rest.length % 3 = 0 := by simp [List.length_cons] at h3; omega
    have ih := a2b_loop_b64encode rest hrest h3'
    have hs0 : b0 / 4 < 64 := by omega
    have hs1 : b0 % 4 * 16 + b1 / 16 < 64 := by omega
    have hs2 : b1 % 16 * 4 + b2 / 64 < 64 := by omega
    have hs3 : b2 % 64 < 64 := by omega
    show a2b_loop (b64table (b0 / 4) :: b64table (b0 % 4 * 16 + b1 / 16) ::
        b64table (b1 % 16 * 4 + b2 / 64) :: b64table (b2 % 64) :: b64encode rest) 0 0 0 =
      .ok (b0 :: b1 :: b2 :: rest)
    rw [a2b_step0 _ _ (b64detab_b64table _ hs0),
        a2b_step1 _ _ (b64detab_b64table _ hs1),
        a2b_step2 _ _ (b64detab_b64table _ hs2),
        a2b_step3 _ _ (b64detab_b64table _ hs3), ih]
    simp only [Except.map]
    congr 1
    have e0 : b0 / 4 * 4 + (b0 % 4 * 16 + b1 / 16) / 16 = b0 := by omega
    have e1 : (b0 % 4 * 16 + b1 / 16) % 16 * 16 + (b1 % 16 * 4 + b2 / 64) / 4 = b1 := by omega
    have e2 : (b1 % 16 * 4 + b2 / 64) % 4 * 64 + b2 % 64 = b2 := by omega
    rw [e0, e1, e2]

/-- Every character emitted by `b64encode` on a byte string is either the pad
character or an alphabet character. -/
lemma b64encode_mem : ∀ bs : List Nat, (∀ b ∈ bs, b < 256) →
    ∀ c ∈ b64encode bs, c = 61 ∨ ∃ s, s < 64 ∧ c = b64table s
  | [], _, c, hc => by simp [b64encode] at hc
  | [b0], hb, c, hc => by
    have hb0 : b0 < 256 := hb _ (by simp)
    simp only [b64encode, List.mem_cons, List.mem_singleton, List.not_mem_nil, or_false] at hc
    rcases hc with h | h | h | h
    · exact Or.inr ⟨_, by omega, h⟩
    · exact Or.inr ⟨_, by omega, h⟩
    · exact Or.inl h
    · exact Or.inl h
  | [b0, b1], hb, c, hc => by
    have hb0 : b0 < 256 := hb _ (by simp)
    have hb1 : b1 < 256 := hb _ (by simp)
    simp only [b64encode, List.mem_cons, List.mem_singleton, List.not_mem_nil, or_false] at hc
    rcases hc with h | h | h | h
    · exact Or.inr ⟨_, by omega, h⟩
    · exact Or.inr ⟨_, by omega, h⟩
    · exact Or.inr ⟨_, by omega, h⟩
    · exact Or.inl h
  | b0 :: b1 :: b2 :: rest, hb, c, hc => by
    have hb0 : b0 < 256 := hb _ (by simp)
    have hb1 : b1 < 256 := hb _ (by simp)
    have hb2 : b2 < 256 := hb _ (by simp)
    have hrest : ∀ b ∈ rest, b < 256 := fun b h => hb b (by simp [h])
    simp only [b64encode, List.mem_cons] at hc
    rcases hc with h | h | h | h | h
    · exact Or.inr ⟨_, by omega, h⟩
    · exact Or.inr ⟨_, by omega, h⟩
    · exact Or.inr ⟨_, by omega, h⟩
    · exact Or.inr ⟨_, by omega, h⟩
    · exact b64encode_mem rest hrest c h

/-- A list is unchanged by `map` when the function fixes each member. -/
lemma map_id_of_mem {f : Nat → Nat} : ∀ l : List Nat, (∀ c ∈ l, f c = c) → l.map f = l := by
  intro l h
  induction l with
  | nil => rfl
  | cons a t ih =>
    simp only [List.map_cons, h a (by simp)]
    rw [ih (fun c hc => h c (by simp [hc]))]

/-- The character-wise composition of `get_flag`'s two outbound replacements
with `check_flag`'s two inbound replacements. -/
def replRound (c : Nat) : Nat :=
  let c1 := if c = 43 then 45 else c
  let c2 := if c1 = 47 then 95 else c1
  let c3 := if c2 = 95 then 47 else c2
  if c3 = 45 then 43 else c3

/-- The replacement round trip fixes the pad character and the alphabet. -/
lemma replRound_fix : ∀ c : Nat, (c = 61 ∨ ∃ s, s < 64 ∧ c = b64table s) → replRound c = c := by
  intro c h
  rcases h with h | ⟨s, hs, h⟩
  · subst h; decide
  · subst h; revert s hs
    decide

/-- `check_flag` undoes `get_flag`'s alphabet substitution. -/
lemma replace_roundtrip (l : List Nat) (h : ∀ c ∈ l, c = 61 ∨ ∃ s, s < 64 ∧ c = b64table s) :
    pyReplace 45 43 (pyReplace 95 47 (pyReplace 47 95 (pyReplace 43 45 l))) = l := by
  unfold pyReplace
  rw [List.map_map, List.map_map, List.map_map]
  exact map_id_of_mem l (fun c hc => replRound_fix c (h c hc))

/-! ## Lemmas: packing -/

/-- `packH` succeeds exactly on 16-bit values and emits the two LE bytes. -/
lemma packH_ok (v : Int) (h0 : 0 ≤ v) (h1 : v < 65536) :
    packH v = .ok [v.toNat % 256, v.toNat / 256] := by
  simp [packH, h0, h1]

/-- `packHHHH` on four in-range values. -/
lemma packHHHH_ok (a b c d : Int) (ha0 : 0 ≤ a) (ha1 : a < 65536) (hb0 : 0 ≤ b)
    (hb1 : b < 65536) (hc0 : 0 ≤ c) (hc1 : c < 65536) (hd0 : 0 ≤ d) (hd1 : d < 65536) :
    packHHHH a b c d = .ok [a.toNat % 256, a.toNat / 256, b.toNat % 256, b.toNat / 256,
      c.toNat % 256, c.toNat / 256, d.toNat % 256, d.toNat / 256] := by
  simp [packHHHH, packH_ok a ha0 ha1, packH_ok b hb0 hb1, packH_ok c hc0 hc1, packH_ok d hd0 hd1]

/-- Little-endian reassembly of the two bytes of a 16-bit value. -/
lemma le16_bytes (v : Int) (h0 : 0 ≤ v) (h1 : v < 65536) :
    ((v.toNat % 256 : Nat) : Int) + 256 * ((v.toNat / 256 : Nat) : Int) = v := by
  omega

/-- Central round-trip helper: any flag produced by `get_flag` for in-range
identifiers passes `check_flag` on the same service and decodes to the original
fields, for any optional checks that do not mismatch. -/
lemma check_flag_get_flag (mac : List Nat → List Nat)
    (hmLen : ∀ d, (mac d).length = MAC_LENGTH)
    (hmByte : ∀ d, ∀ b ∈ mac d, b < 256)
    (team svc tick payload : Int)
    (hteam0 : 0 ≤ team) (hteam1 : team < 65536)
    (hsvc0 : 0 ≤ svc) (hsvc1 : svc < 65536)
    (hpay0 : 0 ≤ payload) (hpay1 : payload < 65536)
    (ctid cst : Option Int)
    (hctid : teamMismatch ctid team = false)
    (hcst : tickMismatch cst (tick % 65536) = false)
    (fl : List Nat) (hfl : get_flag mac team svc tick payload = .ok fl) :
    check_flag mac svc fl ctid cst =
      .ok (some team, some svc, some (tick % 65536), some payload) := by
  have ht0 : 0 ≤ tick % 65536 := Int.emod_nonneg tick (by norm_num)
  have ht1 : tick % 65536 < 65536 := Int.emod_lt_of_pos tick (by norm_num)
  set t : Int := tick % 65536 with htdef
  set D : List Nat := [t.toNat % 256, t.toNat / 256, team.toNat % 256, team.toNat / 256,
    svc.toNat % 256, svc.toNat / 256, payload.toNat % 256, payload.toNat / 256] with hDdef
  have hpack : packHHHH t team svc payload = .ok D :=
    packHHHH_ok t team svc payload ht0 ht1 hteam0 hteam1 hsvc0 hsvc1 hpay0 hpay1
  rw [get_flag, hpack] at hfl
  have hfl' : SAAR_HEAD ++ pyReplace 47 95 (pyReplace 43 45 (b64encode (D ++ mac D))) ++ [125]
      = fl := Except.ok.inj hfl
  subst hfl'
  have hDlen : D.length = 8 := by rw [hDdef]; rfl
  have htn : t.toNat < 65536 := by omega
  have hteamn : team.toNat < 65536 := by omega
  have hsvcn : svc.toNat < 65536 := by omega
  have hpayn : payload.toNat < 65536 := by omega
  have hDbytes : ∀ b ∈ D, b < 256 := by
    intro b hb
    rw [hDdef] at hb
    simp only [List.mem_cons, List.not_mem_nil, or_false] at hb
    rcases hb with h | h | h | h | h | h | h | h <;> subst h <;> omega
  have hfullBytes : ∀ b ∈ D ++ mac D, b < 256 := by
    intro b hb
    rcases List.mem_append.mp hb with h | h
    · exact hDbytes b h
    · exact hmByte D b h
  have hmacLen : (mac D).length = 16 := hmLen D
  have hfullLen : (D ++ mac D).length = 24 := by
    rw [List.length_append, hDlen, hmacLen]
  have hdecode : a2b_loop (b64encode (D ++ mac D)) 0 0 0 = .ok (D ++ mac D) :=
    a2b_loop_b64encode _ hfullBytes (by rw [hfullLen])
  have hchars := b64encode_mem (D ++ mac D) hfullBytes
  have hlt128 : ∀ c ∈ b64encode (D ++ mac D), c < 128 := by
    intro c hc
    rcases hchars c hc with h | ⟨s, hs, h⟩
    · omega
    · subst h
      have hall : ∀ s : Nat, s < 64 → b64table s < 128 := by decide
      exact hall s hs
  have hascii : ((b64encode (D ++ mac D)).any fun c => 128 ≤ c) = false := by
    rw [List.any_eq_false]
    intro c hc
    simpa using Nat.not_le.mpr (hlt128 c hc)
  have hrepl := replace_roundtrip (b64encode (D ++ mac D)) hchars
  have htake5 : ((SAAR_HEAD ++ pyReplace 47 95 (pyReplace 43 45 (b64encode (D ++ mac D)))) ++
      [125]).take 5 = SAAR_HEAD := by
    rw [List.append_assoc]
    exact List.take_left' rfl
  have hlast : ((SAAR_HEAD ++ pyReplace 47 95 (pyReplace 43 45 (b64encode (D ++ mac D)))) ++
      [125]).getLast? = some 125 := List.getLast?_concat _
  have hdrop5 : ((SAAR_HEAD ++ pyReplace 47 95 (pyReplace 43 45 (b64encode (D ++ mac D)))) ++
      [125]).drop 5 = pyReplace 47 95 (pyReplace 43 45 (b64encode (D ++ mac D))) ++ [125] := by
    rw [List.append_assoc]
    exact List.drop_left' rfl
  have hdroplast : (pyReplace 47 95 (pyReplace 43 45 (b64encode (D ++ mac D))) ++
      [125]).dropLast = pyReplace 47 95 (pyReplace 43 45 (b64encode (D ++ mac D))) :=
    List.dropLast_concat
  have htake8 : (D ++ mac D).take 8 = D := List.take_left' hDlen
  have hdrop8 : (D ++ mac D).drop 8 = mac D := List.drop_left' hDlen
  have hunpack : unpackHHHH D = .ok (t, team, svc, payload) := by
    rw [hDdef]
    show Except.ok (((t.toNat % 256 : Nat) : Int) + 256 * ((t.toNat / 256 : Nat) : Int),
      ((team.toNat % 256 : Nat) : Int) + 256 * ((team.toNat / 256 : Nat) : Int),
      ((svc.toNat % 256 : Nat) : Int) + 256 * ((svc.toNat / 256 : Nat) : Int),
      ((payload.toNat % 256 : Nat) : Int) + 256 * ((payload.toNat / 256 : Nat) : Int)) = _
    rw [le16_bytes t ht0 ht1, le16_bytes team hteam0 hteam1, le16_bytes svc hsvc0 hsvc1,
      le16_bytes payload hpay0 hpay1]
  rw [check_flag, htake5, hlast, hdrop5, hdroplast, hrepl]
  simp only [b64decode, hascii, Bool.false_eq_true, if_false, hdecode, hfullLen, FLAG_LENGTH,
    MAC_LENGTH, ne_eq, not_true_eq_false, if_neg, htake8, hdrop8, hunpack, hctid, hcst]

/-- A concrete MAC instance (constant zero digest) used to instantiate the
MAC-parametric theorems on concrete inputs. -/
def zeroMac : List Nat → List Nat := fun _ => List.replicate 16 0

/-- C1: Flag round-trip.  For every team id, service id and payload in
[0, 0xFFFF] and every tick in [-50000, 50000], `get_flag` succeeds and
`check_flag` on the same service id accepts the minted flag and returns
exactly the team id, the service id, `tick mod 65536` and the payload;
passing `check_team_id = team` and `check_stored_tick = tick` also succeeds
(the tick is compared modulo 2^16). -/
theorem C1_flag_roundtrip (mac : List Nat → List Nat)
    (hmLen : ∀ d, (mac d).length = MAC_LENGTH)
    (hmByte : ∀ d, ∀ b ∈ mac d, b < 256)
    (team svc tick payload : Int)
    (hteam : 0 ≤ team ∧ team ≤ 0xffff) (hsvc : 0 ≤ svc ∧ svc ≤ 0xffff)
    (hpay : 0 ≤ payload ∧ payload ≤ 0xffff) (htick : -50000 ≤ tick ∧ tick ≤ 50000) :
    ∃ fl, get_flag mac team svc tick payload = .ok fl ∧
      check_flag mac svc fl none none =
        .ok (some team, some svc, some (tick % 65536), some payload) ∧
      check_flag mac svc fl (some team) (some tick) =
        .ok (some team, some svc, some (tick % 65536), some payload) := by
  have ht0 : 0 ≤ tick % 65536 := Int.emod_nonneg tick (by norm_num)
  have ht1 : tick % 65536 < 65536 := Int.emod_lt_of_pos tick (by norm_num)
  have hfl : ∃ fl, get_flag mac team svc tick payload = .ok fl := by
    rw [get_flag, packHHHH_ok (tick % 65536) team svc payload ht0 ht1 hteam.1 (by omega)
      hsvc.1 (by omega) hpay.1 (by omega)]
    exact ⟨_, rfl⟩
  obtain ⟨fl, hfl⟩ := hfl
  refine ⟨fl, hfl, ?_, ?_⟩
  · exact check_flag_get_flag mac hmLen hmByte team svc tick payload hteam.1 (by omega)
      hsvc.1 (by omega) hpay.1 (by omega) none none rfl rfl fl hfl
  · refine check_flag_get_flag mac hmLen hmByte team svc tick payload hteam.1 (by omega)
      hsvc.1 (by omega) hpay.1 (by omega) (some team) (some tick) ?_ ?_ fl hfl
    · simp [teamMismatch]
    · simp [tickMismatch]

/-- Witness for C1 at `team = 1`, `service = 2`, `tick = -5`, `payload = 3`
with the concrete zero MAC. -/
theorem C1_flag_roundtrip_witness :
    ∃ fl, get_flag zeroMac 1 2 (-5) 3 = .ok fl ∧
      check_flag zeroMac 2 fl none none =
        .ok (some 1, some 2, some ((-5 : Int) % 65536), some 3) ∧
      check_flag zeroMac 2 fl (some 1) (some (-5)) =
        .ok (some 1, some 2, some ((-5 : Int) % 65536), some 3) :=
  C1_flag_roundtrip zeroMac (fun _ => by simp [zeroMac, MAC_LENGTH])
    (fun d b hb => by simp [zeroMac] at hb; omega)
    1 2 (-5) 3 (by norm_num) (by norm_num) (by norm_num) (by norm_num)

/-- `packH` on an out-of-range value raises `struct.error`. -/
lemma packH_err (v : Int) (h : v < 0 ∨ 65536 ≤ v) :
    packH v = .error "struct.error: 'H' format requires 0 <= number <= 65535" := by
  have hv : ¬(0 ≤ v ∧ v < 65536) := by omega
  simp [packH, hv]

/-- `packHHHH` raises whenever its second or fourth argument is out of range
(whatever the other arguments are). -/
lemma packHHHH_error (a b c d : Int) (h : b < 0 ∨ 65536 ≤ b ∨ d < 0 ∨ 65536 ≤ d) :
    ∃ e, packHHHH a b c d = .error e := by
  simp only [packHHHH]
  by_cases hb : 0 ≤ b ∧ b < 65536
  · have hd : d < 0 ∨ 65536 ≤ d := by omega
    cases hpa : packH a with
    | error e => exact ⟨e, rfl⟩
    | ok x1 =>
      rw [packH_ok b hb.1 hb.2]
      cases hpc : packH c with
      | error e => exact ⟨e, rfl⟩
      | ok x3 =>
        rw [packH_err d hd]
        exact ⟨_, rfl⟩
  · have hb' : b < 0 ∨ 65536 ≤ b := by omega
    cases hpa : packH a with
    | error e => exact ⟨e, rfl⟩
    | ok x1 =>
      rw [packH_err b hb']
      exact ⟨_, rfl⟩

/-- C10: minting precondition asymmetry.  `get_flag` raises a struct packing
error whenever `team.id` or `payload` lies outside [0, 0xFFFF]; the tick is
wrapped modulo 2^16 and never causes `get_flag` to raise (for in-range ids any
integer tick succeeds); and a successfully minted token implies the team id
and payload were 16-bit values. -/
theorem C10_get_flag_range (mac : List Nat → List Nat) (team svc tick payload : Int) :
    ((team < 0 ∨ 0xffff < team ∨ payload < 0 ∨ 0xffff < payload) →
      ∃ e, get_flag mac team svc tick payload = .error e) ∧
    (0 ≤ team → team ≤ 0xffff → 0 ≤ svc → svc ≤ 0xffff → 0 ≤ payload → payload ≤ 0xffff →
      ∃ fl, get_flag mac team svc tick payload = .ok fl) ∧
    (∀ fl, get_flag mac team svc tick payload = .ok fl →
      0 ≤ team ∧ team ≤ 0xffff ∧ 0 ≤ payload ∧ payload ≤ 0xffff) := by
  have ht0 : 0 ≤ tick % 65536 := Int.emod_nonneg tick (by norm_num)
  have ht1 : tick % 65536 < 65536 := Int.emod_lt_of_pos tick (by norm_num)
  have herr : (team < 0 ∨ 0xffff < team ∨ payload < 0 ∨ 0xffff < payload) →
      ∃ e, get_flag mac team svc tick payload = .error e := by
    intro h
    obtain ⟨e, he⟩ := packHHHH_error (tick % 65536) team svc payload (by omega)
    exact ⟨e, by rw [get_flag, he]⟩
  refine ⟨herr, ?_, ?_⟩
  · intro h1 h2 h3 h4 h5 h6
    rw [get_flag, packHHHH_ok (tick % 65536) team svc payload ht0 ht1 h1 (by omega)
      h3 (by omega) h5 (by omega)]
    exact ⟨_, rfl⟩
  · intro fl hok
    by_contra hcon
    obtain ⟨e, he⟩ := herr (by omega)
    rw [hok] at he
    exact Except.noConfusion he

/-- Witness for C10: with in-range ids the negative tick -7 mints fine, and
team id 70000 makes `get_flag` raise. -/
theorem C10_get_flag_range_witness :
    (∃ fl, get_flag zeroMac 1 1 (-7) 1 = .ok fl) ∧
    (∃ e, get_flag zeroMac 70000 1 0 1 = .error e) :=
  ⟨(C10_get_flag_range zeroMac 1 1 (-7) 1).2.1 (by norm_num) (by norm_num) (by norm_num)
      (by norm_num) (by norm_num) (by norm_num),
    (C10_get_flag_range zeroMac 70000 1 0 1).1 (by norm_num)⟩

/-- `unpackHHHH` succeeds on every 8-byte buffer. -/
lemma unpackHHHH_isOk : ∀ l : List Nat, l.length = 8 → ∃ q, unpackHHHH l = .ok q
  | [_, _, _, _, _, _, _, _], _ => ⟨_, rfl⟩
  | [], h => by simp at h
  | [_], h => by simp at h
  | [_, _], h => by simp at h
  | [_, _, _], h => by simp at h
  | [_, _, _, _], h => by simp at h
  | [_, _, _, _, _], h => by simp at h
  | [_, _, _, _, _, _], h => by simp at h
  | [_, _, _, _, _, _, _], h => by simp at h
  | _ :: _ :: _ :: _ :: _ :: _ :: _ :: _ :: _ :: _, h => by simp at h

/-- C2 counterexample: on the input string made of the code points of
`'SAAR'`, the opening brace, `'a'` and the closing brace, `check_flag`
raises `binascii.Error` (Python's `base64.b64decode` rejects a body with one
leftover data character) instead of returning the invalid quadruple. -/
theorem C2_check_flag_raises :
    check_flag zeroMac 1 [83, 65, 65, 82, 123, 97, 125] none none =
      .error "binascii.Error: Invalid base64-encoded string: number of data characters cannot be 1 more than a multiple of 4" := by
  rfl

/-- C2 (amended): `check_flag` never raises except through
`base64.b64decode`: for every input, it either returns a result (the decoded
quadruple or the explicit invalid quadruple), or the base64 decoding of the
substring between the delimiters (after character remapping) raises, and
`check_flag` propagates exactly that exception. -/
theorem C2_check_flag_total_except_b64 (mac : List Nat → List Nat) (selfId : Int)
    (flag : List Nat) (ctid cst : Option Int) :
    (∃ r, check_flag mac selfId flag ctid cst = .ok r) ∨
    (∃ e, check_flag mac selfId flag ctid cst = .error e ∧
      b64decode (pyReplace 45 43 (pyReplace 95 47 ((flag.drop 5).dropLast))) = .error e) := by
  rw [check_flag]
  split
  · exact Or.inl ⟨_, rfl⟩
  split
  · exact Or.inl ⟨_, rfl⟩
  split
  · rename_i e hdec
    exact Or.inr ⟨e, rfl, hdec⟩
  · rename_i data hdec
    refine Or.inl ?_
    split
    · exact ⟨_, rfl⟩
    · rename_i hlen
      have h24 : data.length = 24 := not_ne_iff.mp hlen
      obtain ⟨q, hq⟩ := unpackHHHH_isOk (data.take (data.length - MAC_LENGTH))
        (by simp [List.length_take, h24, MAC_LENGTH])
      split
      · rename_i e hq'
        rw [hq] at hq'
        exact absurd hq' (by simp)
      · split_ifs <;> exact ⟨_, rfl⟩

/-- C3: outcome translation is closed and non-escaping.  A lifecycle call
(which returns `None` or raises) always yields one status out of SUCCESS,
MUMBLE, OFFLINE, FLAGMISSING, CRASHED; the explicit error kinds map to their
outcome (`FlagMissingException` to FLAGMISSING, `MumbleException` and
`AssertionError` to MUMBLE, `OfflineException` and connection failures to
OFFLINE); any unclassified exception yields CRASHED; and `run_checker` is a
total function on call results, so no exception raised by the plugin body
propagates out of it. -/
theorem C3_outcome_translation :
    (run_checker (.ok none) = ("SUCCESS", none)) ∧
    (∀ e, (run_checker (.exc e)).1 = "SUCCESS" ∨ (run_checker (.exc e)).1 = "MUMBLE" ∨
      (run_checker (.exc e)).1 = "OFFLINE" ∨ (run_checker (.exc e)).1 = "FLAGMISSING" ∨
      (run_checker (.exc e)).1 = "CRASHED") ∧
    (∀ m, run_checker (.exc (.flagMissingException m)) = ("FLAGMISSING", some m)) ∧
    (∀ m, run_checker (.exc (.mumbleException m)) = ("MUMBLE", some m)) ∧
    (∀ m a, run_checker (.exc (.assertionError m a)) = ("MUMBLE", some (m ++ " " ++ a))) ∧
    (∀ m, run_checker (.exc (.offlineException m)) = ("OFFLINE", some m)) ∧
    (∀ m, run_checker (.exc (.connectionError m)) = ("OFFLINE", some m)) ∧
    (∀ m, run_checker (.exc (.requestsConnectionError m)) = ("OFFLINE", some m)) ∧
    (∀ n m, run_checker (.exc (.otherException n m)) = ("CRASHED", none)) := by
  refine ⟨rfl, ?_, fun m => rfl, fun m => rfl, fun m a => rfl, fun m => rfl, fun m => rfl,
    fun m => rfl, fun n m => rfl⟩
  intro e
  cases e with
  | pwnlibException a0 =>
    by_cases h : strContains a0 "Could not connect to" = true
    · simp [run_checker, handle_checker_exceptions, translate_exc, h]
    · simp only [Bool.not_eq_true] at h
      simp [run_checker, handle_checker_exceptions, translate_exc, h]
  | osError m =>
    by_cases h : strContains m "No route to host" = true
    · simp [run_checker, handle_checker_exceptions, translate_exc, h]
    · simp only [Bool.not_eq_true] at h
      simp [run_checker, handle_checker_exceptions, translate_exc, h]
  | _ => simp [run_checker, handle_checker_exceptions, translate_exc]

/-- C4 counterexample: a `TimeoutError` raised in the executing call does not
yield CRASHED — `translate_checker_exceptions` turns it into
`OfflineException` (its comment: timeouts are guessed to appear on connection
attempts), so `run_checker` returns OFFLINE. -/
theorem C4_timeout_not_crashed :
    run_checker (.exc (.timeoutError "Timed Out")) = ("OFFLINE", some "Timed Out") ∧
    ("OFFLINE" : String) ≠ "CRASHED" :=
  ⟨rfl, by decide⟩

/-- C4 (amended): a timeout exception raised inside the executing call yields
OFFLINE for the builtin `TimeoutError` and MUMBLE for `timeout_decorator`'s
`TimeoutError` (an `AssertionError` subclass) — never CRASHED; CRASHED is
reserved for exceptions that escape the translation layer. -/
theorem C4_timeout_outcome :
    (∀ m, run_checker (.exc (.timeoutError m)) = ("OFFLINE", some m)) ∧
    (∀ m a, run_checker (.exc (.timeoutDecoratorTimeout m a)) =
      ("MUMBLE", some (m ++ " " ++ a))) ∧
    (∀ m, (run_checker (.exc (.timeoutError m))).1 ≠ "CRASHED") ∧
    (∀ m a, (run_checker (.exc (.timeoutDecoratorTimeout m a))).1 ≠ "CRASHED") :=
  ⟨fun m => rfl, fun m a => rfl,
    fun m => by
      rw [show (run_checker (.exc (.timeoutError m))).1 = "OFFLINE" from rfl]
      decide,
    fun m a => by
      rw [show (run_checker (.exc (.timeoutDecoratorTimeout m a))).1 = "MUMBLE" from rfl]
      decide⟩

/-- C5: FLAGMISSING exactness.  `load_or_flagmissing` raises
`FlagMissingException` exactly when `load` returns the absent result; a
`retrieve_flags` body built on `load_or_flagmissing` makes `run_checker`
return FLAGMISSING (never MUMBLE, never CRASHED) when the flag was never
stored; and `handle_checker_exceptions` maps `FlagMissingException` to
FLAGMISSING. -/
theorem C5_flagmissing_exact :
    (∀ redis jsonLoads serviceName teamId tick key,
      load_or_flagmissing redis jsonLoads serviceName teamId tick key =
          .error (.flagMissingException "Flag never stored") ↔
        load redis jsonLoads serviceName teamId tick key = none) ∧
    (∀ redis jsonLoads serviceName teamId tick key,
      load redis jsonLoads serviceName teamId tick key = none →
        run_checker (retrieve_flags_via_load redis jsonLoads serviceName teamId tick key) =
          ("FLAGMISSING", some "Flag never stored")) ∧
    (∀ m, run_checker (.exc (.flagMissingException m)) = ("FLAGMISSING", some m)) := by
  refine ⟨?_, ?_, fun m => rfl⟩
  · intro redis jsonLoads serviceName teamId tick key
    simp only [load_or_flagmissing]
    cases hl : load redis jsonLoads serviceName teamId tick key <;> simp
  · intro redis jsonLoads serviceName teamId tick key h
    simp [retrieve_flags_via_load, load_or_flagmissing, h, run_checker,
      handle_checker_exceptions, translate_exc]

/-- Witness for C5: an empty Redis makes the `load_or_flagmissing`-based
retrieval come back as FLAGMISSING through `run_checker`. -/
theorem C5_flagmissing_exact_witness :
    run_checker (retrieve_flags_via_load (fun _ => none) (fun s => some s) "svc" 1 1 "flag") =
      ("FLAGMISSING", some "Flag never stored") :=
  C5_flagmissing_exact.2.1 (fun _ => none) (fun s => some s) "svc" 1 1 "flag" rfl

/-- C6: idempotent instrumentation.  Wrapping an already-wrapped instance
returns the same instance unchanged, and on a fresh instance every `get_flag`
call is recorded exactly once (a single recorder hook, attached by the first
wrap) even after a second wrap. -/
theorem C6_wrap_idempotent (w w2 : Nat) (iface : IfaceObj) :
    (wrap w2 (wrap w iface) = wrap w iface) ∧
    (iface.serviceWrapper = none → iface.getFlagHooks = [] →
      ∀ teamId tick payload, getFlagRecordings (wrap w2 (wrap w iface)) teamId tick payload =
        [(w, (teamId, tick, payload))]) := by
  constructor
  · by_cases h : iface.serviceWrapper.isSome
    · simp [wrap, h]
    · simp [wrap, h]
  · intro h1 h2 teamId tick payload
    simp [wrap, h1, getFlagRecordings, h2]

/-- Witness for C6 on a fresh instance wrapped by wrapper 0 and again by
wrapper 1. -/
theorem C6_wrap_idempotent_witness :
    (wrap 1 (wrap 0 freshIface) = wrap 0 freshIface) ∧
    getFlagRecordings (wrap 1 (wrap 0 freshIface)) 5 3 0 = [(0, (5, 3, 0))] :=
  ⟨(C6_wrap_idempotent 0 1 freshIface).1,
    (C6_wrap_idempotent 0 1 freshIface).2 rfl rfl 5 3 0⟩

/-- C7 counterexample: `wrap` does alter the wrapped instance's own state —
on a fresh instance it changes the `_service_wrapper` attribute (and the
method slots), so the wrapped instance differs from the original, and the
already-wrapped marker lives on the instance, not on the wrapper. -/
theorem C7_wrap_not_frame_preserving :
    wrap 0 freshIface ≠ freshIface ∧
    (wrap 0 freshIface).serviceWrapper = some 0 ∧ freshIface.serviceWrapper = none := by
  refine ⟨?_, rfl, rfl⟩
  decide

/-- C7 (amended): `wrap` mutates the inner instance — it sets the marker
attribute `_service_wrapper` on the wrapped instance itself and prefixes the
instrumented method slots; the already-wrapped status is detected by reading
that attribute of the instance (a second wrap then leaves it unchanged). -/
theorem C7_wrap_marker_on_instance (w : Nat) (iface : IfaceObj)
    (h : iface.serviceWrapper = none) :
    (wrap w iface).serviceWrapper = some w ∧
    (wrap w iface).getFlagHooks = w :: iface.getFlagHooks ∧
    (∀ w2, wrap w2 (wrap w iface) = wrap w iface) := by
  simp [wrap, h]

/-- Witness for the amended C7 on a fresh instance. -/
theorem C7_wrap_marker_on_instance_witness :
    (wrap 0 freshIface).serviceWrapper = some 0 ∧
    (wrap 0 freshIface).getFlagHooks = 0 :: freshIface.getFlagHooks ∧
    (∀ w2, wrap w2 (wrap 0 freshIface) = wrap 0 freshIface) :=
  C7_wrap_marker_on_instance 0 freshIface rfl

/-- A concrete recorded-flags aggregate with per-tick counts 2, 3, 2, 3, 2
(team 1, ticks 1..5). -/
def sampleFlags : Finset (Int × Int × Int) :=
  {(1, 1, 0), (1, 1, 1), (1, 2, 0), (1, 2, 1), (1, 2, 2), (1, 3, 0), (1, 3, 1),
   (1, 4, 0), (1, 4, 1), (1, 4, 2), (1, 5, 0), (1, 5, 1)}

/-- A concrete set of ten recorded tick executions. -/
def sampleTicks : Finset (Int × Int) :=
  {(1, 1), (1, 2), (1, 3), (1, 4), (1, 5), (1, 6), (1, 7), (1, 8), (1, 9), (1, 10)}

set_option maxRecDepth 40000

/-- On the sample aggregate the wrapper reports min 2, max 3, average 12/5. -/
lemma flags_per_tick_sample : flags_per_tick sampleFlags = some (2, 3, (12 : ℚ) / 5) := by
  rw [flags_per_tick]
  rw [show ((countsKeys sampleFlags).image (tickCount sampleFlags)).min = some 2 from by decide]
  rw [show ((countsKeys sampleFlags).image (tickCount sampleFlags)).max = some 3 from by decide]
  have hs : (∑ k ∈ countsKeys sampleFlags, (tickCount sampleFlags k : ℚ)) = 12 := by
    have hcast : (∑ k ∈ countsKeys sampleFlags, (tickCount sampleFlags k : ℚ)) =
        ((∑ k ∈ countsKeys sampleFlags, tickCount sampleFlags k : ℕ) : ℚ) := by
      push_cast
      rfl
    rw [hcast, show (∑ k ∈ countsKeys sampleFlags, tickCount sampleFlags k) = 12 from by decide]
    norm_num
  rw [hs, show (countsKeys sampleFlags).card = 5 from by decide]
  norm_num

/-- Floor of the sample average. -/
lemma floor_sample_avg : ((⌊((12 : ℚ) / 5)⌋ : ℤ) : ℚ) = 2 := by norm_num

/-- Ceiling of the sample average. -/
lemma ceil_sample_avg : ((⌈((12 : ℚ) / 5)⌉ : ℤ) : ℚ) = 3 := by
  rw [show (⌈((12 : ℚ) / 5)⌉ : ℤ) = 3 from by rw [Int.ceil_eq_iff] <;> norm_num]
  norm_num

/-- C8: configuration audit on `flags_per_tick`.  With at least 10 recorded
tick executions and a computable counts dictionary, the audit passes a
declared value `v` exactly when `min ≤ v ≤ max` and
`floor(avg) ≤ v ≤ ceil(avg)` over the per-(team, non-negative tick) flag
counts; on observed counts 2, 3, 2, 3, 2 it passes exactly the declared
values 2 and 3 and fails 1. -/
theorem C8_audit_flags_per_tick :
    (∀ (runned : Finset (Int × Int)) (flags : Finset (Int × Int × Int)) (v : ℚ)
      (mn mx : Nat) (avg : ℚ), 10 ≤ num_ticks runned →
      flags_per_tick flags = some (mn, mx, avg) →
      (auditFlagsPerTick runned flags v = true ↔
        ((mn : ℚ) ≤ v ∧ v ≤ (mx : ℚ) ∧ ((⌊avg⌋ : ℤ) : ℚ) ≤ v ∧ v ≤ ((⌈avg⌉ : ℤ) : ℚ)))) ∧
    auditFlagsPerTick sampleTicks sampleFlags 2 = true ∧
    auditFlagsPerTick sampleTicks sampleFlags 3 = true ∧
    auditFlagsPerTick sampleTicks sampleFlags 1 = false := by
  have hgen : ∀ (runned : Finset (Int × Int)) (flags : Finset (Int × Int × Int)) (v : ℚ)
      (mn mx : Nat) (avg : ℚ), 10 ≤ num_ticks runned →
      flags_per_tick flags = some (mn, mx, avg) →
      (auditFlagsPerTick runned flags v = true ↔
        ((mn : ℚ) ≤ v ∧ v ≤ (mx : ℚ) ∧ ((⌊avg⌋ : ℤ) : ℚ) ≤ v ∧ v ≤ ((⌈avg⌉ : ℤ) : ℚ))) := by
    intro runned flags v mn mx avg h10 hfpt
    rw [auditFlagsPerTick, if_neg (by omega : ¬num_ticks runned < 10), hfpt]
    simp only [decide_eq_true_eq]
  have h10 : 10 ≤ num_ticks sampleTicks := by decide
  refine ⟨hgen, ?_, ?_, ?_⟩
  · rw [hgen sampleTicks sampleFlags 2 2 3 ((12 : ℚ) / 5) h10 flags_per_tick_sample,
      floor_sample_avg, ceil_sample_avg]
    norm_num
  · rw [hgen sampleTicks sampleFlags 3 2 3 ((12 : ℚ) / 5) h10 flags_per_tick_sample,
      floor_sample_avg, ceil_sample_avg]
    norm_num
  · cases haud : auditFlagsPerTick sampleTicks sampleFlags 1 with
    | false => rfl
    | true =>
      obtain ⟨h1, -⟩ :=
        (hgen sampleTicks sampleFlags 1 2 3 ((12 : ℚ) / 5) h10 flags_per_tick_sample).mp haud
      norm_num at h1

/-- Witness for C8 at the sample aggregate and declared value 2. -/
theorem C8_audit_flags_per_tick_witness :
    auditFlagsPerTick sampleTicks sampleFlags 2 = true ↔
      (((2 : Nat) : ℚ) ≤ 2 ∧ (2 : ℚ) ≤ ((3 : Nat) : ℚ) ∧
        ((⌊((12 : ℚ) / 5)⌋ : ℤ) : ℚ) ≤ 2 ∧ (2 : ℚ) ≤ ((⌈((12 : ℚ) / 5)⌉ : ℤ) : ℚ)) :=
  C8_audit_flags_per_tick.1 sampleTicks sampleFlags 2 2 3 ((12 : ℚ) / 5) (by decide)
    flags_per_tick_sample

/-- C9: configuration audit payload rule.  With more than 10 distinct observed
payloads the audit passes exactly when the declared `num_payloads` is 0; with
at most 10 it passes exactly when the payload set is `0, ..., n-1` for `n` its
size and `n` equals the declared `num_payloads`. -/
theorem C9_audit_payloads :
    (∀ (flags : Finset (Int × Int × Int)) (numPayloads : Int),
      10 < (payloadsOf flags).card →
      (auditPayloads flags numPayloads = true ↔ numPayloads = 0)) ∧
    (∀ (flags : Finset (Int × Int × Int)) (numPayloads : Int),
      (payloadsOf flags).card ≤ 10 →
      (auditPayloads flags numPayloads = true ↔
        (payloadsOf flags =
            (Finset.range (payloadsOf flags).card).image (fun n : Nat => (n : Int)) ∧
          ((payloadsOf flags).card : Int) = numPayloads))) := by
  constructor
  · intro flags np h
    simp only [auditPayloads]
    rw [if_pos h]
    simp
  · intro flags np h
    simp only [auditPayloads]
    rw [if_neg (by omega)]
    simp [Bool.and_eq_true, decide_eq_true_eq]

/-- Witness for C9: the sample aggregate observes payloads 0, 1, 2, so the
declared value 3 passes the audit. -/
theorem C9_audit_payloads_witness :
    auditPayloads sampleFlags 3 = true ↔
      (payloadsOf sampleFlags =
          (Finset.range (payloadsOf sampleFlags).card).image (fun n : Nat => (n : Int)) ∧
        ((payloadsOf sampleFlags).card : Int) = 3) :=
  C9_audit_payloads.2 sampleFlags 3 (by decide)
